import Mathlib

/-!
Verification development for `src/extract_sleep.py` (NAPALYTICS).

The script is a one-shot ETL pipeline: open a zip archive, stream-parse the
embedded `apple_health_export/export.xml`, keep `Record` elements whose `type`
attribute contains one of the substrings "sleep"/"Sleep"/"SLEEP", parse the
three date columns with pandas (strict ISO8601+utc first, falling back to
`pd.to_datetime(col, errors='coerce')` for a whole column if strict parsing
raises), keep rows with `start_date >= max(start_date) - timedelta(days=30)`,
and write the surviving rows to a parquet file.

Modelling choices:
* instants are integers (seconds); `timedelta(days=30)` is `30*24*60*60` s;
* a textual timestamp attribute is abstracted by how the two pandas parsers
  treat it (`DateStr`): strict-ISO with an explicit numeric offset, strict-ISO
  without an offset (timezone-naive), non-ISO but permissively parseable, or
  unparseable.  A parsed pandas timestamp (`PTimestamp`) carries its instant
  and its timezone information (`some off` = aware at fixed offset `off`
  minutes, `none` = naive); `pd.to_datetime(..., utc=True)` converts or
  localizes everything to UTC (`some 0`), while the fallback call on line 66
  of the source has no `utc=True` and keeps offsets / leaves naive values
  naive;
* `ET.iterparse` visits elements in document order, so the XML document is a
  list of elements; `elem.get(attr)` returns `None` for a missing attribute,
  modelled by `Option`;
* the zip layer: `zipfile.ZipFile` raises for a missing path or an invalid
  archive (the spec's `ArchiveError`), `zip_ref.open` raises a key-not-found
  error when the fixed entry is absent (the spec's `NotFoundError`); the
  script catches neither, so both propagate to the top level (`Except`).
-/

namespace Napalytics

/-- Abstract model of a textual timestamp, classified by how the two pandas
parsers used in the source treat it. -/
inductive DateStr
  /-- Parses under `format='ISO8601'`; carries an explicit UTC offset of `off`
  minutes; `t` is the UTC instant in seconds. -/
  | isoOffset (t : Int) (off : Int)
  /-- Parses under `format='ISO8601'` but has no offset (timezone-naive);
  `t` is the naive clock reading in seconds. -/
  | isoNaive (t : Int)
  /-- Rejected by strict ISO parsing but recognized by permissive
  best-effort parsing, timezone-naive. -/
  | looseNaive (t : Int)
  /-- Unparseable by both parsers. -/
  | junk
deriving DecidableEq, Repr

/-- A parsed pandas timestamp: the instant plus timezone information
(`some off` = timezone-aware at fixed offset `off` minutes; `none` = naive). -/
structure PTimestamp where
  instant : Int
  tz : Option Int
deriving DecidableEq, Repr

/-- A timestamp is UTC-normalized when it is timezone-aware at offset 0. -/
def PTimestamp.isUTC (p : PTimestamp) : Bool := p.tz == some 0

/-- `pd.to_datetime(v, format='ISO8601', utc=True)` on one value
(line 63): `none` means the parser raises; naive values are localized to UTC,
offset values are converted to UTC. -/
def parseStrictISOUTC : DateStr → Option PTimestamp
  | .isoOffset t _ => some ⟨t, some 0⟩
  | .isoNaive t => some ⟨t, some 0⟩
  | .looseNaive _ => none
  | .junk => none

/-- `pd.to_datetime(v, errors='coerce')` on one value (line 66, the
fallback): never raises, unparseable values become `NaT` (`none`); there is
no `utc=True`, so offsets are kept and naive values stay naive. -/
def parseCoerce : DateStr → Option PTimestamp
  | .isoOffset t off => some ⟨t, some off⟩
  | .isoNaive t => some ⟨t, none⟩
  | .looseNaive t => some ⟨t, none⟩
  | .junk => none

/-- Whether one cell survives the strict parse without raising: a missing
value (`None`) becomes `NaT` without raising under both parsers. -/
def strictOk : Option DateStr → Bool
  | none => true
  | some d => (parseStrictISOUTC d).isSome

/-- Lines 60-66 of the source, for one column: try
`pd.to_datetime(col, format='ISO8601', utc=True)`; if any value raises, the
bare `except:` falls back to `pd.to_datetime(col, errors='coerce')` for the
whole column. -/
def parseColumn (col : List (Option DateStr)) : List (Option PTimestamp) :=
  if col.all strictOk then
    col.map (fun v => v.bind parseStrictISOUTC)
  else
    col.map (fun v => v.bind parseCoerce)

/-- One XML element as seen by the streaming loop: its tag and the attributes
the script reads (`elem.get` yields `None` when absent). -/
structure Elem where
  tag : String
  typeAttr : Option String
  startDate : Option DateStr
  endDate : Option DateStr
  value : Option String
  unit : Option String
  sourceName : Option String
  creationDate : Option DateStr
deriving DecidableEq, Repr

/-- The raw record dict built on lines 36-44, before date parsing. -/
structure SleepRecord where
  type : Option String
  start_date : Option DateStr
  end_date : Option DateStr
  value : Option String
  unit : Option String
  source_name : Option String
  creation_date : Option DateStr
deriving DecidableEq, Repr

/-- Line 18: `sleep_keywords = ['sleep', 'Sleep', 'SLEEP']`. -/
def sleep_keywords : List String := ["sleep", "Sleep", "SLEEP"]

/-- Python's `needle in hay` substring test on strings. -/
def containsSub (needle hay : String) : Bool :=
  decide (needle.data <:+: hay.data)

/-- `any(keyword in record_type for keyword in sleep_keywords)` (line 35). -/
def hasSleepKeyword (t : String) : Bool :=
  sleep_keywords.any (fun kw => containsSub kw t)

/-- Lines 31-35: the element is processed when its tag is `Record`, and kept
when `record_type` is truthy (present and non-empty) and contains a sleep
keyword. -/
def keepsElem (e : Elem) : Bool :=
  e.tag == "Record" &&
    match e.typeAttr with
    | none => false
    | some t => (t != "") && hasSleepKeyword t

/-- Lines 36-44: the record dict copies the attributes verbatim. -/
def mkRecord (e : Elem) : SleepRecord :=
  { type := e.typeAttr
    start_date := e.startDate
    end_date := e.endDate
    value := e.value
    unit := e.unit
    source_name := e.sourceName
    creation_date := e.creationDate }

/-- The streaming filter, lines 30-45: visit elements in document order and
append a record for each kept element. -/
def sleepRecords (elems : List Elem) : List SleepRecord :=
  (elems.filter keepsElem).map mkRecord

/-- One row of the DataFrame after the date columns were parsed. -/
structure Row where
  type : Option String
  start_date : Option PTimestamp
  end_date : Option PTimestamp
  value : Option String
  unit : Option String
  source_name : Option String
  creation_date : Option PTimestamp
deriving DecidableEq, Repr

/-- Reassemble rows from the raw records and the three parsed date columns
(pandas assigns a parsed column back into the frame positionally). -/
def zipRows : List SleepRecord → List (Option PTimestamp) →
    List (Option PTimestamp) → List (Option PTimestamp) → List Row
  | r :: rs, s :: ss, e :: es, c :: cs =>
    { type := r.type, start_date := s, end_date := e, value := r.value,
      unit := r.unit, source_name := r.source_name, creation_date := c }
      :: zipRows rs ss es cs
  | _, _, _, _ => []

/-- Lines 56-66: build the DataFrame and parse the three date columns, each
column independently (strict ISO8601+utc, whole-column coerce fallback). -/
def normalizeRecs (recs : List SleepRecord) : List Row :=
  zipRows recs
    (parseColumn (recs.map SleepRecord.start_date))
    (parseColumn (recs.map SleepRecord.end_date))
    (parseColumn (recs.map SleepRecord.creation_date))

/-- `df['start_date'].max()` (line 70): pandas skips nulls; the result is
`NaT` (`none`) when every value is null.  Aware fixed-offset timestamps and
naive timestamps alike compare by their stored instant. -/
def maxStart (rows : List Row) : Option Int :=
  (rows.filterMap (fun r => r.start_date.map PTimestamp.instant)).max?

/-- `timedelta(days=30)` in seconds: exactly 720 hours. -/
def thirtyDaysSec : Int := 30 * 24 * 60 * 60

/-- The boolean mask of line 74, `df['start_date'] >= cutoff_date`: a `NaT`
on either side compares `False`. -/
def keepRow (cutoff : Option Int) (r : Row) : Bool :=
  match r.start_date, cutoff with
  | some p, some c => decide (c ≤ p.instant)
  | _, _ => false

/-- Lines 69-74: `cutoff = max(start_date) - timedelta(days=30)` and the
row filter (`NaT - timedelta` is `NaT`, and any comparison with `NaT` is
`False`). -/
def windowFilter (rows : List Row) : List Row :=
  rows.filter (keepRow ((maxStart rows).map (fun m => m - thirtyDaysSec)))

/-- Line 81: `df.to_parquet(output_file, index=False)` serializes the rows
as-is; the writer neither filters nor transforms. -/
def writeTable (rows : List Row) : List Row := rows

/-- Terminal outcome of one run of `extract_sleep_data` after the archive was
opened successfully. -/
inductive Outcome
  /-- Line 52: prints "No sleep data found in the export." and returns with
  no file written. -/
  | noSleepData
  /-- Line 77: prints "No sleep data found in the last 30 days." and returns
  with no file written. -/
  | noRecentData
  /-- Lines 80-87: the rows written to the parquet file. -/
  | written (rows : List Row)
deriving DecidableEq, Repr

/-- Whether the outcome produced an output file. -/
def writesFile : Outcome → Bool
  | .written _ => true
  | _ => false

/-- Lines 51-87 of `extract_sleep_data`, from the element stream to the
terminal outcome. -/
def runExtract (elems : List Elem) : Outcome :=
  let recs := sleepRecords elems
  if recs.isEmpty then .noSleepData
  else
    let filtered := windowFilter (normalizeRecs recs)
    if filtered.isEmpty then .noRecentData
    else .written (writeTable filtered)

/-- The archive argument: a missing path, an invalid (non-zip) file, or a
valid archive with its named entries. -/
inductive ArchiveInput
  | missingPath
  | invalidArchive
  | valid (entries : List (String × List Elem))
deriving DecidableEq

/-- The error taxonomy of the archive layer: `archiveError` covers the
`FileNotFoundError` / `BadZipFile` raised by `zipfile.ZipFile` on a missing
path or invalid archive; `notFoundError` is the key-not-found error raised by
`zip_ref.open` when the fixed entry is absent. -/
inductive PipelineError
  | archiveError
  | notFoundError
deriving DecidableEq, Repr

/-- Line 24: the fixed, hard-coded entry name. -/
def exportEntryName : String := "apple_health_export/export.xml"

/-- Look an entry up by name inside a valid archive. -/
def lookupEntry (entries : List (String × List Elem)) (nm : String) :
    Option (List Elem) :=
  (entries.find? (fun p => p.1 == nm)).map Prod.snd

/-- Lines 23-24: open the archive and the fixed entry, raising through
`Except` exactly where the source raises. -/
def openArchive : ArchiveInput → Except PipelineError (List Elem)
  | .missingPath => .error .archiveError
  | .invalidArchive => .error .archiveError
  | .valid entries =>
    match lookupEntry entries exportEntryName with
    | none => .error .notFoundError
    | some elems => .ok elems

/-- The whole of `extract_sleep_data`: the script catches no archive error,
so `openArchive` failures propagate unchanged to the caller and are never
retried. -/
def runPipeline (a : ArchiveInput) : Except PipelineError Outcome :=
  (openArchive a).map runExtract

/-- The seven dict keys of lines 36-44 — the output columns. -/
def outputColumns : List String :=
  ["type", "start_date", "end_date", "value", "unit", "source_name",
   "creation_date"]

/-- The three date-valued columns (line 59). -/
def dateColumns : List String := ["start_date", "end_date", "creation_date"]

/-- A cell of the output table: either a nullable string or a nullable
parsed timestamp. -/
inductive Cell
  | str (s : Option String)
  | ts (t : Option PTimestamp)
deriving DecidableEq, Repr

/-- View a row as a partial map from column names to cells; names outside
the schema have no cell. -/
def Row.cell (r : Row) (c : String) : Option Cell :=
  if c = "type" then some (.str r.type)
  else if c = "start_date" then some (.ts r.start_date)
  else if c = "end_date" then some (.ts r.end_date)
  else if c = "value" then some (.str r.value)
  else if c = "unit" then some (.str r.unit)
  else if c = "source_name" then some (.str r.source_name)
  else if c = "creation_date" then some (.ts r.creation_date)
  else none

/-! Concrete sample data used to instantiate the theorems below. -/

/-- A single already-normalized row whose start date is the instant 0 UTC. -/
def r1w : Row :=
  { type := some "sleep", start_date := some ⟨0, some 0⟩, end_date := none,
    value := none, unit := none, source_name := none, creation_date := none }

/-- A `Record` element whose type is the literal `SleepSession`. -/
def e2w : Elem :=
  { tag := "Record", typeAttr := some "SleepSession", startDate := none,
    endDate := none, value := none, unit := none, sourceName := none,
    creationDate := none }

/-- A date column holding one naive ISO value and one unparseable value, so
the strict whole-column parse raises and the coerce fallback runs. -/
def c3col : List (Option DateStr) := [some (.isoNaive 100), some .junk]

/-- A date column whose single value is strict-ISO with offset +120 min. -/
def c5colStrict : List (Option DateStr) := [some (.isoOffset 5 120)]

/-- A valid archive whose export entry holds no elements at all. -/
def entries4 : List (String × List Elem) := [(exportEntryName, [])]

/-- Sleep-typed element with a naive ISO start date. -/
def e5a : Elem :=
  { tag := "Record", typeAttr := some "sleep",
    startDate := some (.isoNaive 1000), endDate := none, value := none,
    unit := none, sourceName := none, creationDate := none }

/-- Sleep-typed element with an unparseable start date. -/
def e5b : Elem :=
  { tag := "Record", typeAttr := some "sleep", startDate := some .junk,
    endDate := none, value := none, unit := none, sourceName := none,
    creationDate := none }

/-- A document whose start-date column forces the coerce fallback. -/
def elems5 : List Elem := [e5a, e5b]

/-- The single row the pipeline writes for `elems5`: its start date is
timezone-naive, not UTC. -/
def row5a : Row :=
  { type := some "sleep", start_date := some ⟨1000, none⟩, end_date := none,
    value := none, unit := none, source_name := none, creation_date := none }

/-- A matching `Record` element carrying only its type attribute; every
other attribute is missing. -/
def e6w : Elem :=
  { tag := "Record", typeAttr := some "HKCategoryTypeIdentifierSleepAnalysis",
    startDate := none, endDate := none, value := none, unit := none,
    sourceName := none, creationDate := none }

/-! End-to-end example data: five records whose start dates span 40 days
ending at 2024-06-30T00:00:00Z (= 1719705600 s).  The cutoff is
2024-05-31T00:00:00Z (= 1717113600 s). -/

/-- Sleep analysis record at 2024-06-30T00:00:00Z. -/
def e9a : Elem :=
  { tag := "Record", typeAttr := some "HKCategoryTypeIdentifierSleepAnalysis",
    startDate := some (.isoOffset 1719705600 0),
    endDate := some (.isoOffset 1719734400 0), value := some "Asleep",
    unit := none, sourceName := some "Watch",
    creationDate := some (.isoOffset 1719734400 0) }

/-- Step count record at 2024-06-15T00:00:00Z (non-matching type). -/
def e9b : Elem :=
  { tag := "Record", typeAttr := some "HKQuantityTypeIdentifierStepCount",
    startDate := some (.isoOffset 1718409600 0), endDate := none,
    value := some "9000", unit := some "count", sourceName := some "Phone",
    creationDate := none }

/-- Sleep session record at 2024-06-05T00:00:00Z. -/
def e9c : Elem :=
  { tag := "Record", typeAttr := some "SleepSession",
    startDate := some (.isoOffset 1717545600 0), endDate := none,
    value := none, unit := none, sourceName := none, creationDate := none }

/-- Sleep efficiency record exactly at the cutoff 2024-05-31T00:00:00Z. -/
def e9d : Elem :=
  { tag := "Record", typeAttr := some "sleep_efficiency",
    startDate := some (.isoOffset 1717113600 0), endDate := none,
    value := some "0.93", unit := none, sourceName := none,
    creationDate := none }

/-- Heart rate record at 2024-05-21T00:00:00Z, 40 days before the end
(non-matching type, outside the window as well). -/
def e9e : Elem :=
  { tag := "Record", typeAttr := some "HeartRate",
    startDate := some (.isoOffset 1716249600 0), endDate := none,
    value := some "60", unit := some "count/min", sourceName := none,
    creationDate := none }

/-- The five-record document of the end-to-end example. -/
def elems9 : List Elem := [e9a, e9b, e9c, e9d, e9e]

/-- Expected output row for `e9a`. -/
def row9a : Row :=
  { type := some "HKCategoryTypeIdentifierSleepAnalysis",
    start_date := some ⟨1719705600, some 0⟩,
    end_date := some ⟨1719734400, some 0⟩, value := some "Asleep",
    unit := none, source_name := some "Watch",
    creation_date := some ⟨1719734400, some 0⟩ }

/-- Expected output row for `e9c`. -/
def row9c : Row :=
  { type := some "SleepSession", start_date := some ⟨1717545600, some 0⟩,
    end_date := none, value := none, unit := none, source_name := none,
    creation_date := none }

/-- Expected output row for `e9d`. -/
def row9d : Row :=
  { type := some "sleep_efficiency", start_date := some ⟨1717113600, some 0⟩,
    end_date := none, value := some "0.93", unit := none,
    source_name := none, creation_date := none }

/-- A document with one sleep record whose start date is unparseable. -/
def elems10 : List Elem :=
  [{ tag := "Record", typeAttr := some "sleep", startDate := some .junk,
     endDate := none, value := none, unit := none, sourceName := none,
     creationDate := none }]

/-! Helper lemmas shared by the claim theorems. -/

/-- A row with a null start date never passes the mask; neither does any row
when the cutoff itself is `NaT`. -/
theorem keepRow_none_eq_false (r : Row) : keepRow none r = false := by
  unfold keepRow
  cases r.start_date <;> rfl

/-- Characterization of the line-74 mask for a real cutoff. -/
theorem keepRow_some_iff (c : Int) (r : Row) :
    keepRow (some c) r = true ↔
      ∃ p, r.start_date = some p ∧ c ≤ p.instant := by
  unfold keepRow
  cases hs : r.start_date <;> simp

/-- `timedelta(days=30)` is exactly 720 hours. -/
theorem thirtyDaysSec_eq : thirtyDaysSec = 720 * 3600 := by decide

/-- A string containing a sleep keyword is truthy in Python's sense. -/
theorem hasSleepKeyword_truthy (t : String) (h : hasSleepKeyword t = true) :
    (t != "") = true := by
  cases he : (t == "") with
  | false => simp [bne, he]
  | true =>
    have ht : t = "" := by simpa using he
    subst ht
    exact absurd h (by decide)

/-- The three-keyword disjunction behind `hasSleepKeyword`. -/
theorem hasSleepKeyword_iff (t : String) :
    hasSleepKeyword t = true ↔
      (containsSub "sleep" t || containsSub "Sleep" t ||
        containsSub "SLEEP" t) = true := by
  simp [hasSleepKeyword, sleep_keywords, List.any_cons, List.any_nil,
    Bool.or_assoc]

/-- Column parsing never drops or adds a value. -/
theorem parseColumn_length (col : List (Option DateStr)) :
    (parseColumn col).length = col.length := by
  unfold parseColumn
  split <;> simp

/-- When the strict whole-column parse succeeds, every parsed timestamp is
timezone-aware at offset 0 (UTC). -/
theorem parseColumn_strict_utc (col : List (Option DateStr)) (p : PTimestamp)
    (hall : col.all strictOk = true) (hmem : some p ∈ parseColumn col) :
    p.tz = some 0 := by
  unfold parseColumn at hmem
  rw [if_pos hall] at hmem
  rw [List.mem_map] at hmem
  obtain ⟨v, _, hv⟩ := hmem
  cases v with
  | none => simp at hv
  | some d => cases d <;> simp [parseStrictISOUTC] at hv <;> simp [← hv]

/-- Reassembling rows preserves the non-date fields positionally whenever
the three columns have the right length. -/
theorem zipRows_proj (recs : List SleepRecord)
    (ss es cs : List (Option PTimestamp))
    (h1 : ss.length = recs.length) (h2 : es.length = recs.length)
    (h3 : cs.length = recs.length) :
    (zipRows recs ss es cs).map
        (fun r => (r.type, r.value, r.unit, r.source_name)) =
      recs.map (fun r => (r.type, r.value, r.unit, r.source_name)) := by
  induction recs generalizing ss es cs with
  | nil => simp [zipRows]
  | cons r rs ih =>
    cases ss with
    | nil => simp at h1
    | cons s ss =>
      cases es with
      | nil => simp at h2
      | cons e es =>
        cases cs with
        | nil => simp at h3
        | cons c cs =>
          simp only [zipRows, List.map_cons]
          rw [ih ss es cs (by simpa using h1) (by simpa using h2)
            (by simpa using h3)]

/-- A non-empty window filter forces a non-null maximum start date. -/
theorem maxStart_isSome_of_windowFilter_ne_nil (rows : List Row)
    (hne : windowFilter rows ≠ []) : ∃ m, maxStart rows = some m := by
  cases hmx : maxStart rows with
  | none =>
    exfalso
    apply hne
    unfold windowFilter
    rw [hmx]
    simp only [Option.map_none']
    exact List.filter_eq_nil_iff.mpr
      (fun r _ => by simp [keepRow_none_eq_false])
  | some m => exact ⟨m, rfl⟩

/-! The claim theorems. -/

/-- Claim C1: for every non-empty output table, a row is retained if and
only if it is one of the parsed rows, its `start_date` is non-null and it
satisfies `start_date >= max(start_date) - 30 days`, where the maximum runs
over all parsed rows with nulls excluded and the cutoff sits exactly
720 hours (720 * 3600 seconds) before that maximum; no row satisfying the
bound is excluded and no null-start-date row is retained. -/
theorem window_invariant (rows : List Row) (r : Row)
    (hne : windowFilter rows ≠ []) :
    r ∈ windowFilter rows ↔
      r ∈ rows ∧ ∃ p m, r.start_date = some p ∧ maxStart rows = some m ∧
        m - 720 * 3600 ≤ p.instant := by
  obtain ⟨m, hmx⟩ := maxStart_isSome_of_windowFilter_ne_nil rows hne
  have heq : windowFilter rows =
      rows.filter (keepRow (some (m - thirtyDaysSec))) := by
    unfold windowFilter
    rw [hmx]
    rfl
  rw [heq, List.mem_filter]
  constructor
  · rintro ⟨hmem, hkeep⟩
    obtain ⟨p, hp, hle⟩ := (keepRow_some_iff _ r).mp hkeep
    refine ⟨hmem, p, m, hp, hmx, ?_⟩
    rw [← thirtyDaysSec_eq]
    exact hle
  · rintro ⟨hmem, p, m', hp, hm', hle⟩
    rw [hmx] at hm'
    injection hm' with hmm
    subst hmm
    refine ⟨hmem, (keepRow_some_iff _ r).mpr ⟨p, hp, ?_⟩⟩
    rw [thirtyDaysSec_eq]
    exact hle

/-- Witness instantiating Claim C1 on a one-row table. -/
theorem window_invariant_witness :
    r1w ∈ windowFilter [r1w] ↔
      r1w ∈ [r1w] ∧ ∃ p m, r1w.start_date = some p ∧
        maxStart [r1w] = some m ∧ m - 720 * 3600 ≤ p.instant :=
  window_invariant [r1w] r1w (by decide)

/-- Claim C2: a `Record` element of the document yields a SleepRecord if and
only if its `type` attribute is present and contains at least one of the
literal substrings "sleep", "Sleep", "SLEEP" (case-sensitive substring
match); elements with a missing or non-matching `type` are dropped, and a
kept element's record appears in the output of the streaming filter. -/
theorem keyword_filter (elems : List Elem) (e : Elem)
    (htag : e.tag = "Record") (hmem : e ∈ elems) :
    (keepsElem e = true ↔
      ∃ t, e.typeAttr = some t ∧
        (containsSub "sleep" t || containsSub "Sleep" t ||
          containsSub "SLEEP" t) = true) ∧
    (keepsElem e = true → mkRecord e ∈ sleepRecords elems) := by
  constructor
  · constructor
    · intro hk
      unfold keepsElem at hk
      cases hta : e.typeAttr with
      | none => rw [hta] at hk; simp at hk
      | some t =>
        rw [hta] at hk
        simp only [Bool.and_eq_true, beq_iff_eq] at hk
        exact ⟨t, rfl, (hasSleepKeyword_iff t).mp hk.2.2⟩
    · rintro ⟨t, hta, hsub⟩
      unfold keepsElem
      rw [hta, htag]
      simp only [beq_self_eq_true, Bool.true_and, Bool.and_eq_true]
      have hkw : hasSleepKeyword t = true := (hasSleepKeyword_iff t).mpr hsub
      exact ⟨hasSleepKeyword_truthy t hkw, hkw⟩
  · intro hk
    unfold sleepRecords
    exact List.mem_map_of_mem _ (List.mem_filter.mpr ⟨hmem, hk⟩)

/-- Witness instantiating Claim C2 on a `SleepSession` record element. -/
theorem keyword_filter_witness :
    (keepsElem e2w = true ↔
      ∃ t, e2w.typeAttr = some t ∧
        (containsSub "sleep" t || containsSub "Sleep" t ||
          containsSub "SLEEP" t) = true) ∧
    (keepsElem e2w = true → mkRecord e2w ∈ sleepRecords [e2w]) :=
  keyword_filter [e2w] e2w rfl (by decide)

/-- Claim C3, counterexample: a start-date column holding one timezone-naive
ISO value and one unparseable value makes the strict whole-column parse
raise, and the fallback `pd.to_datetime(col, errors='coerce')` (source line
66, which lacks `utc=True`) returns a timezone-naive timestamp — the
fallback is not normalized to UTC as the claim states. -/
theorem date_fallback_not_utc_cex :
    parseColumn c3col = [some ⟨100, none⟩, none] ∧
    (parseColumn c3col).map (Option.map PTimestamp.isUTC) =
      [some false, none] := by decide

/-- Claim C3, amended: each of the three date columns is first parsed under
the strict ISO-8601 format normalized to UTC; if any value in a column fails
strict ISO parsing, the entire column is re-parsed with permissive
best-effort parsing which is NOT normalized to UTC (offsets are kept and
naive values stay naive); values that still cannot be parsed become a null
timestamp, and no row is dropped at the parsing stage. -/
theorem date_parse_fallback (col : List (Option DateStr)) :
    (parseColumn col).length = col.length ∧
    (col.all strictOk = true →
      parseColumn col = col.map (fun v => v.bind parseStrictISOUTC)) ∧
    (col.all strictOk = false →
      parseColumn col = col.map (fun v => v.bind parseCoerce)) ∧
    (∀ p : PTimestamp, col.all strictOk = true → some p ∈ parseColumn col →
      p.tz = some 0) ∧
    (∀ i : Nat, col[i]? = some (some DateStr.junk) →
      (parseColumn col)[i]? = some none) := by
  refine ⟨parseColumn_length col, ?_, ?_, ?_, ?_⟩
  · intro h
    unfold parseColumn
    rw [if_pos h]
  · intro h
    unfold parseColumn
    rw [if_neg (by simp [h])]
  · intro p h hmem
    exact parseColumn_strict_utc col p h hmem
  · intro i hi
    unfold parseColumn
    split <;> rw [List.getElem?_map, hi] <;> rfl

/-- Witness instantiating the amended Claim C3 on a column that forces the
fallback. -/
theorem date_parse_fallback_witness :
    (parseColumn c3col).length = c3col.length ∧
    parseColumn c3col = c3col.map (fun v => v.bind parseCoerce) ∧
    (parseColumn c3col)[1]? = some none :=
  ⟨(date_parse_fallback c3col).1,
    (date_parse_fallback c3col).2.2.1 (by decide),
    (date_parse_fallback c3col).2.2.2.2 1 (by decide)⟩

/-- Claim C4: when the archive opens and its export entry holds no
sleep-keyword record, or every matched record is filtered out by the 30-day
window, the pipeline writes no output file, takes one of the two documented
informational-message outcomes, and terminates cleanly (`Except.ok`, no
exception). -/
theorem empty_result_clean (entries : List (String × List Elem))
    (elems : List Elem)
    (hentry : lookupEntry entries exportEntryName = some elems)
    (hempty : sleepRecords elems = [] ∨
      windowFilter (normalizeRecs (sleepRecords elems)) = []) :
    writesFile (runExtract elems) = false ∧
    (runExtract elems = .noSleepData ∨ runExtract elems = .noRecentData) ∧
    runPipeline (.valid entries) = .ok (runExtract elems) := by
  have hout : runExtract elems = .noSleepData ∨
      runExtract elems = .noRecentData := by
    unfold runExtract
    rcases hempty with h | h
    · left
      simp [h]
    · by_cases hr : (sleepRecords elems).isEmpty
      · left
        simp [hr]
      · right
        simp [hr, h]
  refine ⟨?_, hout, ?_⟩
  · rcases hout with h | h <;> rw [h] <;> rfl
  · have hopen : openArchive (.valid entries) = .ok elems := by
      simp only [openArchive]
      rw [hentry]
    unfold runPipeline
    rw [hopen]
    rfl

/-- Witness instantiating Claim C4 on a valid archive whose export entry is
empty. -/
theorem empty_result_clean_witness :
    writesFile (runExtract []) = false ∧
    (runExtract [] = .noSleepData ∨ runExtract [] = .noRecentData) ∧
    runPipeline (.valid entries4) = .ok (runExtract []) :=
  empty_result_clean entries4 [] (by decide) (Or.inl (by decide))

/-- Claim C5, counterexample: a run whose start-date column forces the
coerce fallback writes a table whose `start_date` value is timezone-naive,
so the written date columns are not always UTC timestamps as the claim
states. -/
theorem column_utc_cex :
    runExtract elems5 = .written [row5a] ∧
    row5a.start_date = some ⟨1000, none⟩ ∧
    (PTimestamp.mk 1000 none).isUTC = false := by decide

/-- Claim C5, amended: the written output table has exactly the seven
columns `type, start_date, end_date, value, unit, source_name,
creation_date` — no column added or dropped — with the three date columns
as nullable timestamps (UTC-normalized whenever the column's strict ISO
parse succeeded, but possibly timezone-naive or fixed-offset under the
permissive fallback) and the other four as nullable strings; the writer
performs no filtering or transformation of its input. -/
theorem column_preservation :
    (∀ rows : List Row, writeTable rows = rows) ∧
    (∀ (r : Row) (c : String), (r.cell c).isSome = true ↔
      c ∈ outputColumns) ∧
    (∀ r : Row, ∀ c ∈ dateColumns, ∃ t, r.cell c = some (.ts t)) ∧
    (∀ r : Row, ∀ c ∈ outputColumns, c ∉ dateColumns →
      ∃ s, r.cell c = some (.str s)) ∧
    (∀ (col : List (Option DateStr)) (p : PTimestamp),
      col.all strictOk = true → some p ∈ parseColumn col →
        p.isUTC = true) := by
  refine ⟨fun rows => rfl, ?_, ?_, ?_, ?_⟩
  · intro r c
    unfold Row.cell
    unfold outputColumns
    split_ifs <;> simp_all
  · intro r c hc
    unfold dateColumns at hc
    simp only [List.mem_cons, List.not_mem_nil, or_false] at hc
    rcases hc with rfl | rfl | rfl <;> exact ⟨_, rfl⟩
  · intro r c hc hnd
    unfold outputColumns at hc
    unfold dateColumns at hnd
    simp only [List.mem_cons, List.not_mem_nil, or_false] at hc hnd
    push_neg at hnd
    obtain ⟨h1, h2, h3⟩ := hnd
    rcases hc with rfl | rfl | rfl | rfl | rfl | rfl | rfl
    · exact ⟨_, rfl⟩
    · exact absurd rfl h1
    · exact absurd rfl h2
    · exact ⟨_, rfl⟩
    · exact ⟨_, rfl⟩
    · exact ⟨_, rfl⟩
    · exact absurd rfl h3
  · intro col p hall hmem
    unfold PTimestamp.isUTC
    rw [parseColumn_strict_utc col p hall hmem]
    rfl

/-- Witness instantiating the amended Claim C5 on concrete cells and a
strict-parsing column. -/
theorem column_preservation_witness :
    writeTable [row5a] = [row5a] ∧
    ((row5a.cell "type").isSome = true ↔ "type" ∈ outputColumns) ∧
    (∃ t, row5a.cell "start_date" = some (.ts t)) ∧
    (∃ s, row5a.cell "value" = some (.str s)) ∧
    (PTimestamp.mk 5 (some 0)).isUTC = true :=
  ⟨column_preservation.1 [row5a],
    column_preservation.2.1 row5a "type",
    column_preservation.2.2.1 row5a "start_date" (by decide),
    column_preservation.2.2.2.1 row5a "value" (by decide) (by decide),
    column_preservation.2.2.2.2 c5colStrict ⟨5, some 0⟩ (by decide)
      (by decide)⟩

/-- Claim C6: for a `Record` element that matches the sleep-keyword filter,
every missing attribute becomes a null field of the resulting SleepRecord,
copied verbatim from `elem.get`; the streaming filter is total on such
elements (it never raises), producing exactly one record for the element. -/
theorem missing_attrs_null (e : Elem) (hk : keepsElem e = true) :
    sleepRecords [e] =
      [{ type := e.typeAttr, start_date := e.startDate,
         end_date := e.endDate, value := e.value, unit := e.unit,
         source_name := e.sourceName, creation_date := e.creationDate }] := by
  unfold sleepRecords
  rw [List.filter_cons_of_pos hk]
  rfl

/-- Witness instantiating Claim C6 on an element carrying only its type
attribute: every other field of the produced record is null. -/
theorem missing_attrs_null_witness :
    sleepRecords [e6w] =
      [{ type := some "HKCategoryTypeIdentifierSleepAnalysis",
         start_date := none, end_date := none, value := none, unit := none,
         source_name := none, creation_date := none }] :=
  missing_attrs_null e6w (by decide)

/-- Claim C7: opening the archive fails with the not-found error exactly
when a valid archive lacks the fixed entry `apple_health_export/export.xml`,
and with the archive error exactly when the path is missing or the file is
not a valid archive; every such error surfaces unchanged at the top level
of the pipeline (fatal, never retried, never converted into an outcome). -/
theorem archive_error_taxonomy (a : ArchiveInput) :
    (runPipeline a = .error .notFoundError ↔
      ∃ entries, a = .valid entries ∧
        lookupEntry entries exportEntryName = none) ∧
    (runPipeline a = .error .archiveError ↔
      (a = .missingPath ∨ a = .invalidArchive)) ∧
    (∀ e : PipelineError, runPipeline a = .error e ↔
      openArchive a = .error e) := by
  cases a with
  | missingPath =>
    refine ⟨?_, ?_, ?_⟩ <;> simp [runPipeline, openArchive, Except.map]
  | invalidArchive =>
    refine ⟨?_, ?_, ?_⟩ <;> simp [runPipeline, openArchive, Except.map]
  | valid entries =>
    cases h : lookupEntry entries exportEntryName with
    | none =>
      refine ⟨?_, ?_, ?_⟩ <;>
        simp [runPipeline, openArchive, h, Except.map]
    | some elems =>
      refine ⟨?_, ?_, ?_⟩ <;>
        simp [runPipeline, openArchive, h, Except.map]

/-- Claim C8: elements are visited in document order and matched records
keep that order (the filter distributes over concatenation of document
parts), normalization keeps every row aligned with its record positionally,
and the 30-day window filter is stable — the retained rows form a sublist
of the parsed rows in their original order. -/
theorem document_order (elems elemsB : List Elem) (rows : List Row)
    (recs : List SleepRecord) :
    sleepRecords (elems ++ elemsB) =
      sleepRecords elems ++ sleepRecords elemsB ∧
    (windowFilter rows).Sublist rows ∧
    (normalizeRecs recs).map
        (fun r => (r.type, r.value, r.unit, r.source_name)) =
      recs.map (fun r => (r.type, r.value, r.unit, r.source_name)) := by
  refine ⟨?_, ?_, ?_⟩
  · unfold sleepRecords
    rw [List.filter_append, List.map_append]
  · unfold windowFilter
    exact List.filter_sublist rows
  · unfold normalizeRecs
    exact zipRows_proj recs _ _ _
      (by rw [parseColumn_length, List.length_map])
      (by rw [parseColumn_length, List.length_map])
      (by rw [parseColumn_length, List.length_map])

/-- Claim C9: on the archive holding the five example records — types
`HKCategoryTypeIdentifierSleepAnalysis`, `HKQuantityTypeIdentifierStepCount`,
`SleepSession`, `sleep_efficiency`, `HeartRate`, start dates spanning
40 days ending at 2024-06-30T00:00:00Z — the pipeline writes exactly the
three sleep-matching records whose start date is at or after
2024-05-31T00:00:00Z, in document order; the step-count and heart-rate
records and no others are excluded. -/
theorem end_to_end_example :
    runPipeline (.valid [(exportEntryName, elems9)]) =
      .ok (.written [row9a, row9c, row9d]) := by rfl

/-- Claim C10: when at least one sleep-keyword record is extracted but
every start date fails to parse, the maximum start date is null, the window
mask holds for no row, the filtered table is empty, and the run ends in the
no-data-in-last-30-days outcome with no output file written. -/
theorem all_null_start_dates (elems : List Elem)
    (h1 : sleepRecords elems ≠ [])
    (h2 : ∀ r ∈ normalizeRecs (sleepRecords elems), r.start_date = none) :
    maxStart (normalizeRecs (sleepRecords elems)) = none ∧
    windowFilter (normalizeRecs (sleepRecords elems)) = [] ∧
    runExtract elems = .noRecentData ∧
    writesFile (runExtract elems) = false := by
  have hmax : maxStart (normalizeRecs (sleepRecords elems)) = none := by
    unfold maxStart
    rw [List.filterMap_eq_nil_iff.mpr (fun r hr => by rw [h2 r hr]; rfl)]
    rfl
  have hwf : windowFilter (normalizeRecs (sleepRecords elems)) = [] := by
    unfold windowFilter
    rw [hmax]
    simp only [Option.map_none']
    exact List.filter_eq_nil_iff.mpr
      (fun r _ => by simp [keepRow_none_eq_false])
  have hrun : runExtract elems = .noRecentData := by
    unfold runExtract
    have hne : (sleepRecords elems).isEmpty = false := by
      cases hsr : sleepRecords elems with
      | nil => exact absurd hsr h1
      | cons a l => rfl
    simp [hne, hwf]
  exact ⟨hmax, hwf, hrun, by rw [hrun]; rfl⟩

/-- Witness instantiating Claim C10 on a document with one sleep record
whose start date is unparseable. -/
theorem all_null_start_dates_witness :
    maxStart (normalizeRecs (sleepRecords elems10)) = none ∧
    windowFilter (normalizeRecs (sleepRecords elems10)) = [] ∧
    runExtract elems10 = .noRecentData ∧
    writesFile (runExtract elems10) = false :=
  all_null_start_dates elems10 (by decide) (by decide)

end Napalytics
